import Mathlib

/-!
Shallow embedding of `src/lgas1itl.py`, a single-file Streamlit dashboard
over a hosted `cylinders` table (plus a `TEST_cylinders` batch table).

Modelling conventions:
* a table is a `List Row`; the external store's `update … eq/in_` calls are
  given their documented filter-and-assign semantics;
* calendar dates are day numbers (`Nat`); a date cell that failed
  `pd.to_datetime(…, errors='coerce')` is `none` (pandas `NaT`), and any
  comparison against `none` is false, as NaT comparisons are in pandas;
* numeric cells (`Capacity_kg`, `Fill_Percent`) are rationals;
* Python's string primitives (`strip`, `upper`, `lower`, `split`,
  `replace`, `isdigit`, `int`) are translated to structural functions on
  the character list of a `String`, so that every definition evaluates.
-/

/-- Python `str.strip` / `str.upper` whitespace test (ASCII). -/
def pySpace (c : Char) : Bool :=
  c = ' ' ∨ c = '\t' ∨ c = '\n' ∨ c = '\r'

/-- Characters of a string after Python `str.strip`. -/
def stripChars (cs : List Char) : List Char :=
  ((cs.dropWhile pySpace).reverse.dropWhile pySpace).reverse

/-- Python `s.strip()`. -/
def pyStrip (s : String) : String := String.mk (stripChars s.data)

/-- Python `s.upper()` (ASCII letters, as the IDs in this app are). -/
def pyUpper (s : String) : String := String.mk (s.data.map Char.toUpper)

/-- Python `s.lower()` (ASCII letters). -/
def pyLower (s : String) : String := String.mk (s.data.map Char.toLower)

/-- Python `s.isdigit()`: non-empty and every character a digit. -/
def pyIsDigit (s : String) : Bool :=
  !s.data.isEmpty && s.data.all Char.isDigit

/-- Python `int(s)` on an all-digit string: the decimal value. -/
def pyInt (s : String) : Nat :=
  s.data.foldl (fun n c => 10 * n + (c.toNat - 48)) 0

/-- Split a character list at every occurrence of `sep`
(Python `str.split(sep)` for a one-character separator). -/
def splitAtSep (sep : Char) : List Char → List Char → List (List Char)
  | [], acc => [acc.reverse]
  | c :: cs, acc =>
    if c = sep then acc.reverse :: splitAtSep sep cs []
    else splitAtSep sep cs (c :: acc)

/-- Python `s.split('\n')`. -/
def splitLines (s : String) : List String :=
  (splitAtSep '\n' s.data []).map String.mk

/-- Python `s.replace(',', '\n')`. -/
def replaceCommas (s : String) : String :=
  String.mk (s.data.map (fun c => if c = ',' then '\n' else c))

/-- Does `p` start the list `l`?  (Structural helper for the substring
test below.) -/
def startsWithChars (p : List Char) (l : List Char) : Bool :=
  match p, l with
  | [], _ => true
  | _ :: _, [] => false
  | a :: ps, b :: ls => a = b && startsWithChars ps ls

/-- Does `p` occur contiguously inside `l`?  This is the match performed
by pandas `str.contains` with a plain (non-regex-special) pattern. -/
def containsChars (p : List Char) : List Char → Bool
  | [] => p.isEmpty
  | c :: ls => startsWithChars p (c :: ls) || containsChars p ls

/-- A row of the `cylinders` (or `TEST_cylinders`) table, after the
loader's cleaning: `Location_PIN` held as a string, the three date
columns parsed (`none` models an unparsable date). -/
structure Row where
  cylinder_id : String
  customer_name : String
  capacity_kg : ℚ
  status : String
  current_location : String
  location_pin : String
  fill_percent : ℚ
  last_fill_date : Option Nat
  last_test_date : Option Nat
  next_test_due : Option Nat
  overdue : Bool
  batch_id : String
deriving DecidableEq

/-- The per-row cleaning `load_supabase_data` performs on a non-empty
frame: `Location_PIN` is cast to string and stripped (the date columns
are already represented parsed in `Row`). -/
def cleanRow (r : Row) : Row := { r with location_pin := pyStrip r.location_pin }

/-- `load_supabase_data`: fetches the whole `cylinders` table with
`select("*")` — no filter of any kind, there is no session profile,
role or `client_link` in this file — then cleans each row. -/
def loadSupabaseData (cylinders : List Row) : List Row :=
  cylinders.map cleanRow

/-- `df = df_main.copy()` (line 55): the page-level frame is the full
loaded dataset, unfiltered. -/
def dfView (cylinders : List Row) : List Row := loadSupabaseData cylinders

/-- A date cell compared with `<= today` (`.dt.date <= today` on a
series, `.date() <= today` on a scalar): false on a missing date. -/
def dateOnOrBefore (d : Option Nat) (today : Nat) : Bool :=
  match d with
  | none => false
  | some x => decide (x ≤ today)

/-- Dashboard metric
`overdue_count = len(df[df["Next_Test_Due"].dt.date <= today])`. -/
def dashboardOverdueCount (t : List Row) (today : Nat) : Nat :=
  (t.filter (fun r => dateOnOrBefore r.next_test_due today)).length

/-- Dashboard `highlight_overdue`: a row is greyed iff
`row["Next_Test_Due"].date() <= today`. -/
def dashboardHighlight (r : Row) (today : Nat) : Bool :=
  dateOnOrBefore r.next_test_due today

/-- Finder `highlight_overdue` (the same expression as the dashboard's). -/
def finderHighlight (r : Row) (today : Nat) : Bool :=
  dateOnOrBefore r.next_test_due today

/-- Finder alert list
`overdue_list = f_df[f_df["Next_Test_Due"].dt.date <= today]`. -/
def finderOverdueRows (t : List Row) (today : Nat) : List Row :=
  t.filter (fun r => dateOnOrBefore r.next_test_due today)

/-- Cylinder Finder filtering (lines 135-155): the ID box is stripped and
uppercased, then matched as a substring of the uppercased `Cylinder_ID`
(pandas `str.contains` with a plain pattern); the customer box is a
case-insensitive substring match; a status other than `"All"` is an
equality filter.  An empty box skips its filter (Python truthiness). -/
def finderSearch (rawId rawName sStatus : String) (t : List Row) : List Row :=
  let sId := pyUpper (pyStrip rawId)
  let sName := pyStrip rawName
  let f1 := if sId = "" then t
    else t.filter (fun r => containsChars sId.data (pyUpper r.cylinder_id).data)
  let f2 := if sName = "" then f1
    else f1.filter (fun r =>
      containsChars (pyLower sName).data (pyLower r.customer_name).data)
  if sStatus = "All" then f2
  else f2.filter (fun r => decide (r.status = sStatus))

/-- Bulk-update identifier parsing (line 255):
`[i.strip().upper() for i in bulk_input.replace(',', '\n').split('\n') if i.strip()]`. -/
def parseBulkIds (s : String) : List String :=
  (splitLines (replaceCommas s)).filterMap
    (fun i => if pyStrip i = "" then none else some (pyUpper (pyStrip i)))

/-- The identifier-list construction as the spec words it: split the block
on newlines and commas, trim whitespace from each entry, discard empty
entries — with no further transformation.  Stated only to be compared
with `parseBulkIds`, the list the code builds. -/
def specSplitTrimDiscard (s : String) : List String :=
  ((splitLines (replaceCommas s)).map pyStrip).filter (fun i => decide (i ≠ ""))

/-- The key-value payload the bulk-update form builds (lines 256-260):
`Batch_ID` and `Current_Location` always; `Status` only when the select
box is not `"No Change"`; `Customer_Name` only when the owner box is
non-empty. -/
structure BulkPayload where
  batch_id : String
  current_location : String
  status : Option String
  customer_name : Option String
deriving DecidableEq

/-- Payload construction from the four form fields. -/
def mkBulkPayload (targetBatch dest newStatus newOwner : String) : BulkPayload :=
  { batch_id := targetBatch
    current_location := dest
    status := if newStatus ≠ "No Change" then some newStatus else none
    customer_name := if newOwner ≠ "" then some newOwner else none }

/-- Assigning a bulk payload to one row: exactly the keys present in the
payload are overwritten, every other column keeps its value. -/
def applyBulkPayload (p : BulkPayload) (r : Row) : Row :=
  { r with
    batch_id := p.batch_id
    current_location := p.current_location
    status := p.status.getD r.status
    customer_name := p.customer_name.getD r.customer_name }

/-- Semantics of the single external call
`update(payload).in_("Cylinder_ID", id_list)` (line 263): every row whose
`Cylinder_ID` is in the list receives the payload, every other row is
untouched. -/
def bulkUpdateTable (p : BulkPayload) (ids : List String) (t : List Row) : List Row :=
  t.map (fun r => if r.cylinder_id ∈ ids then applyBulkPayload p r else r)

/-- The Process Bulk Update button (lines 253-270): Python truthiness
requires both a confirmed batch id and a non-empty ID box; then the box
is parsed and one update call is issued.  `none` models the error branch,
where no call is issued. -/
def processBulkUpdate (bulkInput targetBatch dest newStatus newOwner : String)
    (t : List Row) : Option (List Row) :=
  if bulkInput ≠ "" ∧ targetBatch ≠ "" then
    some (bulkUpdateTable (mkBulkPayload targetBatch dest newStatus newOwner)
      (parseBulkIds bulkInput) t)
  else none

/-- "Retrieve info" (lines 219-229): the IDs pushed into the bulk-update
box are those of the batch rows whose `Status` is not `"Full"`, falling
back to all of the batch's IDs when no such row remains. -/
def retrieveInfoIds (batch : List Row) : List String :=
  let remaining := batch.filter (fun r => decide (r.status ≠ "Full"))
  if remaining.isEmpty then batch.map (fun r => r.cylinder_id)
  else remaining.map (fun r => r.cylinder_id)

/-- Batch reconciliation (lines 285-294): the whole section, including
`prog = completed / total`, sits under `if not batch_data.empty`, so no
value is produced for an empty batch — that guard is the only thing
standing between `prog` and a division by zero. -/
def reconciliationProg (batch : List Row) : Option ℚ :=
  if batch.isEmpty then none
  else
    let total : ℚ := batch.length
    let completed : ℚ := (batch.filter (fun r => decide (r.status = "Full"))).length
    some (completed / total)

/-- Return & Penalty Log status choice (line 321):
`"Empty" if condition == "Good" else "Damaged"`. -/
def returnNewStatus (condition : String) : String :=
  if condition = "Good" then "Empty" else "Damaged"

/-- Semantics of the Return & Penalty Log call (line 323):
`update({"Status": new_status, "Fill_Percent": 0}).eq("Cylinder_ID", target_id)`. -/
def returnUpdateTable (condition targetId : String) (t : List Row) : List Row :=
  t.map (fun r =>
    if r.cylinder_id = targetId then
      { r with status := returnNewStatus condition, fill_percent := 0 }
    else r)

/-- The insert payload of the Add New Cylinder form (lines 350-362).
Dates are day numbers; `str(today)` is represented by the day itself. -/
structure NewCylinderPayload where
  cylinder_id : String
  customer_name : String
  location_pin : Nat
  capacity_kg : ℚ
  fill_percent : ℚ
  status : String
  last_fill_date : Nat
  last_test_date : Nat
  next_test_due : Nat
  overdue : Bool
deriving DecidableEq

/-- Add New Cylinder submit (lines 339-364): the scanned ID is stripped
and uppercased by the input line itself; an empty result is rejected with
an error (`none`) and no insert call is built; otherwise the fixed
payload is inserted. -/
def addCylinderSubmit (cIdRaw cust pin : String) (capVal : ℚ) (today : Nat) :
    Option NewCylinderPayload :=
  if pyUpper (pyStrip cIdRaw) = "" then none
  else some
    { cylinder_id := pyUpper (pyStrip cIdRaw)
      customer_name := cust
      location_pin := if pyIsDigit pin then pyInt pin else 0
      capacity_kg := capVal
      fill_percent := 100
      status := "Full"
      last_fill_date := today
      last_test_date := today
      next_test_due := today + 1825
      overdue := false }

/-- The spec's reading of "overdue": the next test due date has passed,
i.e. lies strictly before the current date.  Stated only to be compared
with the code's `<=` comparison. -/
def specHasPassed (d today : Nat) : Bool := decide (d < today)

/-- A sample row constructor for concrete instances. -/
def mkRow (id name stat : String) (due : Option Nat) : Row :=
  { cylinder_id := id
    customer_name := name
    capacity_kg := 14
    status := stat
    current_location := "Depot"
    location_pin := "500001"
    fill_percent := 100
    last_fill_date := some 0
    last_test_date := some 0
    next_test_due := due
    overdue := false
    batch_id := "BATCH001" }

/-- Claim C1 counterexample: with a one-row table whose `Customer_Name` is
`"Acme"`, a session whose `client_link` is `"Globex"` still receives that
row from the loader — so it is false that every row returned has
`Customer_Name` equal to the session's `client_link`. -/
theorem claim1_counterexample :
    ¬ (∀ r ∈ loadSupabaseData [mkRow "CYL1" "Acme" "Full" (some 9)],
        r.customer_name = "Globex") := by
  decide

/-- Claim C1 (amended): `load_supabase_data` issues `select("*")` with no
filter at all — there is no session profile, role or `client_link`
anywhere in this file — so the loader returns every row of the table,
with its `Customer_Name` untouched, to every user. -/
theorem claim1_loader_applies_no_filter (t : List Row) :
    (loadSupabaseData t).length = t.length ∧
    (loadSupabaseData t).map Row.customer_name = t.map Row.customer_name ∧
    dfView t = loadSupabaseData t := by
  refine ⟨by simp [loadSupabaseData], ?_, rfl⟩
  simp only [loadSupabaseData, List.map_map]
  rfl

/-- Claim C3 counterexample: for a batch with 0 rows the reconciliation
section is skipped outright (`if not batch_data.empty`), so no ratio —
in particular not the ratio 0 — is ever produced for it. -/
theorem claim3_counterexample :
    reconciliationProg [] ≠ some (0 : ℚ) := by
  decide

/-- Claim C3 (amended): for every non-empty queried batch the progress
value equals count(Status = "Full") divided by the batch size, and the
denominator is non-zero there; for a batch with 0 rows no ratio is
computed at all — that emptiness guard is what rules out division by
zero. -/
theorem claim3_progress_formula (batch : List Row) (h : batch ≠ []) :
    reconciliationProg batch =
      some (((batch.filter (fun r => decide (r.status = "Full"))).length : ℚ) /
        (batch.length : ℚ)) ∧
    ((batch.length : ℚ) ≠ 0) := by
  have hne : ¬ batch.isEmpty := by
    simpa [List.isEmpty_iff] using h
  constructor
  · simp [reconciliationProg, hne]
  · have : 0 < batch.length := List.length_pos.mpr h
    exact_mod_cast Nat.pos_iff_ne_zero.mp this

/-- Claim C3 witness: the theorem evaluated on a concrete one-row batch. -/
theorem claim3_witness :
    reconciliationProg [mkRow "CYL1" "Acme" "Full" (some 9)] =
      some ((([mkRow "CYL1" "Acme" "Full" (some 9)].filter
          (fun r => decide (r.status = "Full"))).length : ℚ) /
        (([mkRow "CYL1" "Acme" "Full" (some 9)] : List Row).length : ℚ)) ∧
    ((([mkRow "CYL1" "Acme" "Full" (some 9)] : List Row).length : ℚ) ≠ 0) :=
  claim3_progress_formula _ (by decide)

/-- Claim C5: an add-cylinder submission whose Cylinder ID is empty or
whitespace-only (so that Python's `strip()` leaves nothing) is rejected —
the handler produces the error branch and builds no insert call. -/
theorem claim5_empty_id_rejected (cIdRaw cust pin : String) (cap : ℚ)
    (today : Nat) (h : pyStrip cIdRaw = "") :
    addCylinderSubmit cIdRaw cust pin cap today = none := by
  have hup : pyUpper (pyStrip cIdRaw) = "" := by rw [h]; rfl
  simp [addCylinderSubmit, hup]

/-- Claim C5 witness: a whitespace-only scanned ID, concrete form values. -/
theorem claim5_witness :
    addCylinderSubmit "   " "Internal Stock" "500001" 14 100 = none :=
  claim5_empty_id_rejected "   " "Internal Stock" "500001" 14 100 (by decide)

/-- Claim C7 counterexample: a cylinder whose `Next_Test_Due` is exactly
today (day 7) is flagged by the code's `<=` comparison even though its
due date has not passed (it is not strictly before today). -/
theorem claim7_counterexample :
    dashboardHighlight (mkRow "CYL7" "Acme" "Full" (some 7)) 7 = true ∧
    specHasPassed 7 7 = false := by
  decide

/-- Claim C7 (amended): a loaded row is flagged/counted as overdue exactly
when its `Next_Test_Due` date is on or before (`<=`) the current
Asia/Kolkata date — not strictly before it — and the Dashboard overdue
count, the Dashboard row highlight and the Finder safety-alert list all
use this same comparison (a missing date is never flagged). -/
theorem claim7_overdue_comparison (today : Nat) (r : Row) (t : List Row) :
    (dashboardHighlight r today = true ↔
      ∃ d, r.next_test_due = some d ∧ d ≤ today) ∧
    finderHighlight r today = dashboardHighlight r today ∧
    dashboardOverdueCount t today =
      (t.filter (fun x => dashboardHighlight x today)).length ∧
    (finderOverdueRows t today).length = dashboardOverdueCount t today := by
  refine ⟨?_, rfl, rfl, rfl⟩
  cases hd : r.next_test_due with
  | none => simp [dashboardHighlight, dateOnOrBefore, hd]
  | some d => simp [dashboardHighlight, dateOnOrBefore, hd]

/-- Claim C10: when a non-empty looked-up batch still has rows whose
`Status` is not `"Full"`, "Retrieve info" fills the bulk-update box with
exactly those rows' IDs; when every row of the batch is `"Full"`, it
falls back to all of the batch's IDs instead of leaving the box empty. -/
theorem claim10_retrieve_info (batch : List Row) :
    ((∀ r ∈ batch, r.status = "Full") →
      retrieveInfoIds batch = batch.map (fun r => r.cylinder_id)) ∧
    ((∃ r ∈ batch, r.status ≠ "Full") →
      retrieveInfoIds batch =
        (batch.filter (fun r => decide (r.status ≠ "Full"))).map
          (fun r => r.cylinder_id)) := by
  constructor
  · intro hall
    have hnil : batch.filter (fun r => decide (r.status ≠ "Full")) = [] := by
      rw [List.filter_eq_nil_iff]
      intro x hx
      simp [hall x hx]
    simp only [retrieveInfoIds]
    rw [hnil]
    rfl
  · rintro ⟨r, hr, hne⟩
    have hmem : r ∈ batch.filter (fun r => decide (r.status ≠ "Full")) := by
      rw [List.mem_filter]
      exact ⟨hr, by simpa using hne⟩
    have hfne : ¬ (batch.filter (fun r => decide (r.status ≠ "Full"))).isEmpty = true := by
      rw [List.isEmpty_iff]
      intro hnil
      rw [hnil] at hmem
      exact absurd hmem (List.not_mem_nil r)
    have hfalse := Bool.eq_false_iff.mpr hfne
    simp only [retrieveInfoIds]
    rw [hfalse]
    rfl

/-- Claim C10 witness: a two-row batch with one non-Full row; the box is
filled with the non-Full row's ID list. -/
theorem claim10_witness :
    retrieveInfoIds
        [mkRow "CYL1" "Acme" "Full" (some 9), mkRow "CYL2" "Acme" "Empty" (some 9)] =
      ([mkRow "CYL1" "Acme" "Full" (some 9),
        mkRow "CYL2" "Acme" "Empty" (some 9)].filter
          (fun r => decide (r.status ≠ "Full"))).map (fun r => r.cylinder_id) :=
  (claim10_retrieve_info _).2
    ⟨mkRow "CYL2" "Acme" "Empty" (some 9), by decide, by decide⟩

/-- The bulk-ID list comprehension, restated: filtering the raw entries
by a non-blank strip and then stripping-and-uppercasing each survivor is
the same as stripping all entries, discarding the blank results, and
uppercasing. -/
theorem filterMap_strip_upper (l : List String) :
    l.filterMap (fun i => if pyStrip i = "" then none else some (pyUpper (pyStrip i))) =
      ((l.map pyStrip).filter (fun i => decide (i ≠ ""))).map pyUpper := by
  induction l with
  | nil => rfl
  | cons a l ih =>
    by_cases h : pyStrip a = ""
    · simp [List.filterMap_cons, List.filter_cons, h, ih]
    · simp [List.filterMap_cons, List.filter_cons, h, ih]

/-- Claim C6 counterexample: for the block `"ab"` the code's list is
`["AB"]` while splitting, trimming and discarding empties alone gives
`["ab"]` — the code additionally uppercases every entry. -/
theorem claim6_counterexample :
    parseBulkIds "ab" = ["AB"] ∧ specSplitTrimDiscard "ab" = ["ab"] := by
  decide

/-- Claim C6 (amended): the identifier list is obtained by splitting the
block on newlines and commas, trimming whitespace from each entry,
discarding empty entries, and uppercasing each remaining entry; under
the submit guard, that list is the `in_("Cylinder_ID", …)` filter of the
single update call issued. -/
theorem claim6_parse_and_single_call (bulkInput targetBatch dest newStatus
    newOwner : String) (t : List Row)
    (h1 : bulkInput ≠ "") (h2 : targetBatch ≠ "") :
    parseBulkIds bulkInput = (specSplitTrimDiscard bulkInput).map pyUpper ∧
    processBulkUpdate bulkInput targetBatch dest newStatus newOwner t =
      some (bulkUpdateTable (mkBulkPayload targetBatch dest newStatus newOwner)
        (parseBulkIds bulkInput) t) := by
  constructor
  · unfold parseBulkIds specSplitTrimDiscard
    exact filterMap_strip_upper _
  · simp [processBulkUpdate, h1, h2]

/-- Claim C6 witness: the amended statement evaluated on a concrete block
and form state. -/
theorem claim6_witness :
    parseBulkIds "a, b" = (specSplitTrimDiscard "a, b").map pyUpper ∧
    processBulkUpdate "a, b" "B1" "Testing Center" "No Change" "" [] =
      some (bulkUpdateTable (mkBulkPayload "B1" "Testing Center" "No Change" "")
        (parseBulkIds "a, b") []) :=
  claim6_parse_and_single_call "a, b" "B1" "Testing Center" "No Change" "" []
    (by decide) (by decide)

/-- If `f` is injective on a list (its image has no duplicates), at most
one element of the list satisfies `f r = c`. -/
theorem length_filter_eq_le_one {α β : Type} [DecidableEq β] (f : α → β) (c : β) :
    ∀ t : List α, (t.map f).Nodup →
      (t.filter (fun r => decide (f r = c))).length ≤ 1 := by
  intro t
  induction t with
  | nil => intro _; simp
  | cons a l ih =>
    intro h
    rw [List.map_cons, List.nodup_cons] at h
    by_cases hc : f a = c
    · have hnil : l.filter (fun r => decide (f r = c)) = [] := by
        rw [List.filter_eq_nil_iff]
        intro x hx
        simp only [decide_eq_true_eq]
        intro hfx
        apply h.1
        rw [hc, ← hfx]
        exact List.mem_map_of_mem f hx
      have hpa : decide (f a = c) = true := by simp [hc]
      rw [List.filter_cons, if_pos hpa, hnil]
      simp
    · have hpa : ¬ (decide (f a = c) = true) := by simp [hc]
      rw [List.filter_cons, if_neg hpa]
      exact ih h.2

/-- Claim C2 counterexample: a table whose `Cylinder_ID`s are pairwise
distinct (a unique key) on which the Finder lookup for the exact
identifier `"CYL1"` returns two rows — the filter matches by substring
(`str.contains`), so `"CYL1"` also matches `"CYL11"`. -/
theorem claim2_counterexample :
    ([mkRow "CYL1" "Acme" "Full" (some 9),
      mkRow "CYL11" "Acme" "Full" (some 9)].map (fun r => r.cylinder_id)).Nodup ∧
    (finderSearch "CYL1" "" "All"
      [mkRow "CYL1" "Acme" "Full" (some 9),
       mkRow "CYL11" "Acme" "Full" (some 9)]).length = 2 := by
  decide

/-- Claim C2 (amended): the Finder ID lookup filters by substring match
and can return several rows even over a unique key; what does hold is
that when the table's uppercased `Cylinder_ID`s are pairwise distinct,
at most one returned row's `Cylinder_ID` is exactly (case-insensitively)
the searched identifier. -/
theorem claim2_exact_match_at_most_one (rawId : String) (t : List Row)
    (h : (t.map (fun r => pyUpper r.cylinder_id)).Nodup) :
    ((finderSearch rawId "" "All" t).filter
        (fun r => decide (pyUpper r.cylinder_id = pyUpper (pyStrip rawId)))).length ≤ 1 := by
  have hform : finderSearch rawId "" "All" t =
      (if pyUpper (pyStrip rawId) = "" then t
       else t.filter (fun r =>
         containsChars (pyUpper (pyStrip rawId)).data (pyUpper r.cylinder_id).data)) := rfl
  have hsub : (finderSearch rawId "" "All" t).Sublist t := by
    rw [hform]
    by_cases hid : pyUpper (pyStrip rawId) = ""
    · rw [if_pos hid]
    · rw [if_neg hid]
      exact List.filter_sublist t
  have hsubf := hsub.filter
    (fun r => decide (pyUpper r.cylinder_id = pyUpper (pyStrip rawId)))
  exact le_trans hsubf.length_le
    (length_filter_eq_le_one (fun r => pyUpper r.cylinder_id) (pyUpper (pyStrip rawId)) t h)

/-- Claim C2 witness: the amended statement on a concrete one-row table. -/
theorem claim2_witness :
    ((finderSearch "CYL1" "" "All" [mkRow "CYL1" "Acme" "Full" (some 9)]).filter
        (fun r => decide (pyUpper r.cylinder_id = pyUpper (pyStrip "CYL1")))).length ≤ 1 :=
  claim2_exact_match_at_most_one "CYL1" [mkRow "CYL1" "Acme" "Full" (some 9)] (by decide)

/-- Claim C4: the bulk update leaves the table the same length; every row
whose `Cylinder_ID` is not in the submitted identifier list is returned
unchanged; every row whose `Cylinder_ID` is in the list receives exactly
the payload's keys — `Batch_ID` and `Current_Location` always, `Status`
and `Customer_Name` only when present in the payload — while all of its
other columns keep their values. -/
theorem claim4_bulk_update_frame (p : BulkPayload) (ids : List String)
    (t : List Row) (i : Nat) (h : i < t.length) :
    (bulkUpdateTable p ids t).length = t.length ∧
    ∃ r2, (bulkUpdateTable p ids t)[i]? = some r2 ∧
      (t[i].cylinder_id ∉ ids → r2 = t[i]) ∧
      (t[i].cylinder_id ∈ ids →
        r2.batch_id = p.batch_id ∧
        r2.current_location = p.current_location ∧
        (∀ s, p.status = some s → r2.status = s) ∧
        (p.status = none → r2.status = t[i].status) ∧
        (∀ o, p.customer_name = some o → r2.customer_name = o) ∧
        (p.customer_name = none → r2.customer_name = t[i].customer_name) ∧
        r2.cylinder_id = t[i].cylinder_id ∧
        r2.capacity_kg = t[i].capacity_kg ∧
        r2.location_pin = t[i].location_pin ∧
        r2.fill_percent = t[i].fill_percent ∧
        r2.last_fill_date = t[i].last_fill_date ∧
        r2.last_test_date = t[i].last_test_date ∧
        r2.next_test_due = t[i].next_test_due ∧
        r2.overdue = t[i].overdue) := by
  constructor
  · simp [bulkUpdateTable]
  · refine ⟨if t[i].cylinder_id ∈ ids then applyBulkPayload p t[i] else t[i],
      ?_, ?_, ?_⟩
    · simp only [bulkUpdateTable, List.getElem?_map, List.getElem?_eq_getElem h]
      rfl
    · intro hnot
      rw [if_neg hnot]
    · intro hmem
      rw [if_pos hmem]
      refine ⟨rfl, rfl, ?_, ?_, ?_, ?_, rfl, rfl, rfl, rfl, rfl, rfl, rfl, rfl⟩
      · intro s hs
        show p.status.getD t[i].status = s
        rw [hs]
        rfl
      · intro hs
        show p.status.getD t[i].status = t[i].status
        rw [hs]
        rfl
      · intro o ho
        show p.customer_name.getD t[i].customer_name = o
        rw [ho]
        rfl
      · intro ho
        show p.customer_name.getD t[i].customer_name = t[i].customer_name
        rw [ho]
        rfl

/-- Claim C4 witness: a one-row table whose row is in the submitted set. -/
theorem claim4_witness :
    (bulkUpdateTable (mkBulkPayload "B1" "Testing Center" "No Change" "")
        ["CYL1"] [mkRow "CYL1" "Acme" "Full" (some 9)]).length =
      ([mkRow "CYL1" "Acme" "Full" (some 9)] : List Row).length :=
  (claim4_bulk_update_frame (mkBulkPayload "B1" "Testing Center" "No Change" "")
    ["CYL1"] [mkRow "CYL1" "Acme" "Full" (some 9)] 0 (by decide)).1

/-- Claim C9: a submitted return touches exactly the rows whose
`Cylinder_ID` equals the selected identifier; on such a row the status
becomes `"Empty"` if and only if the chosen condition is `"Good"` (and
`"Damaged"` otherwise), `Fill_Percent` becomes 0, and every other column
keeps its value; all other rows are unchanged. -/
theorem claim9_return_update (condition targetId : String) (t : List Row)
    (i : Nat) (h : i < t.length) :
    (returnUpdateTable condition targetId t).length = t.length ∧
    ∃ r2, (returnUpdateTable condition targetId t)[i]? = some r2 ∧
      (t[i].cylinder_id ≠ targetId → r2 = t[i]) ∧
      (t[i].cylinder_id = targetId →
        (r2.status = "Empty" ↔ condition = "Good") ∧
        (condition ≠ "Good" → r2.status = "Damaged") ∧
        r2.fill_percent = 0 ∧
        r2.cylinder_id = t[i].cylinder_id ∧
        r2.customer_name = t[i].customer_name ∧
        r2.capacity_kg = t[i].capacity_kg ∧
        r2.current_location = t[i].current_location ∧
        r2.location_pin = t[i].location_pin ∧
        r2.last_fill_date = t[i].last_fill_date ∧
        r2.last_test_date = t[i].last_test_date ∧
        r2.next_test_due = t[i].next_test_due ∧
        r2.overdue = t[i].overdue ∧
        r2.batch_id = t[i].batch_id) := by
  constructor
  · simp [returnUpdateTable]
  · refine ⟨if t[i].cylinder_id = targetId then
        { t[i] with status := returnNewStatus condition, fill_percent := 0 }
      else t[i], ?_, ?_, ?_⟩
    · simp only [returnUpdateTable, List.getElem?_map, List.getElem?_eq_getElem h]
      rfl
    · intro hnot
      rw [if_neg hnot]
    · intro hmem
      rw [if_pos hmem]
      refine ⟨?_, ?_, rfl, rfl, rfl, rfl, rfl, rfl, rfl, rfl, rfl, rfl, rfl⟩
      · show returnNewStatus condition = "Empty" ↔ condition = "Good"
        by_cases hg : condition = "Good"
        · rw [returnNewStatus, if_pos hg]
          simp [hg]
        · rw [returnNewStatus, if_neg hg]
          constructor
          · intro habs
            exact absurd habs (by decide)
          · intro hgg
            exact absurd hgg hg
      · intro hg
        show returnNewStatus condition = "Damaged"
        rw [returnNewStatus, if_neg hg]

/-- Claim C9 witness: a one-row table and a `"Good"`-condition return on
its row. -/
theorem claim9_witness :
    (returnUpdateTable "Good" "CYL1" [mkRow "CYL1" "Acme" "Full" (some 9)]).length =
      ([mkRow "CYL1" "Acme" "Full" (some 9)] : List Row).length :=
  (claim9_return_update "Good" "CYL1" [mkRow "CYL1" "Acme" "Full" (some 9)]
    0 (by decide)).1

/-- Claim C8: whenever the add-cylinder submit builds an insert payload,
that payload has `Status` `"Full"`, `Fill_Percent` 100, `Overdue` false,
`Last_Fill_Date` and `Last_Test_Date` equal to the current date,
`Next_Test_Due` exactly 1825 days later, `Location_PIN` the entered PIN
read as a decimal integer when `isdigit` holds of it and 0 otherwise,
and carries the stripped-and-uppercased scanned ID, the customer name
and the selected capacity through unchanged. -/
theorem claim8_new_cylinder_payload (cIdRaw cust pin : String) (cap : ℚ)
    (today : Nat) (p : NewCylinderPayload)
    (h : addCylinderSubmit cIdRaw cust pin cap today = some p) :
    p.status = "Full" ∧ p.fill_percent = 100 ∧ p.overdue = false ∧
    p.last_fill_date = today ∧ p.last_test_date = today ∧
    p.next_test_due = today + 1825 ∧
    (pyIsDigit pin = true → p.location_pin = pyInt pin) ∧
    (pyIsDigit pin = false → p.location_pin = 0) ∧
    p.cylinder_id = pyUpper (pyStrip cIdRaw) ∧
    p.customer_name = cust ∧ p.capacity_kg = cap := by
  unfold addCylinderSubmit at h
  by_cases hid : pyUpper (pyStrip cIdRaw) = ""
  · rw [if_pos hid] at h
    exact absurd h (by simp)
  · rw [if_neg hid] at h
    have hp := Option.some.inj h
    subst hp
    refine ⟨rfl, rfl, rfl, rfl, rfl, rfl, ?_, ?_, rfl, rfl, rfl⟩
    · intro hb
      show (if pyIsDigit pin = true then pyInt pin else 0) = pyInt pin
      rw [if_pos hb]
    · intro hb
      show (if pyIsDigit pin = true then pyInt pin else 0) = 0
      rw [if_neg (by simp [hb])]

/-- Claim C8 witness: a concrete scan (`"cyl9 "`, customer, all-digit
PIN, capacity 14, day 100) whose payload is spelled out. -/
theorem claim8_witness :
    ({ cylinder_id := "CYL9", customer_name := "Internal Stock",
       location_pin := 500001, capacity_kg := 14, fill_percent := 100,
       status := "Full", last_fill_date := 100, last_test_date := 100,
       next_test_due := 1925, overdue := false } : NewCylinderPayload).status =
      "Full" :=
  (claim8_new_cylinder_payload "cyl9 " "Internal Stock" "500001" 14 100
    { cylinder_id := "CYL9", customer_name := "Internal Stock",
      location_pin := 500001, capacity_kg := 14, fill_percent := 100,
      status := "Full", last_fill_date := 100, last_test_date := 100,
      next_test_due := 1925, overdue := false } (by decide)).1
